import Mathlib

/-!
Shallow embedding of `src/app.py` (conversation-bi): the four-stage pipeline
consisting of intent detection (`detect_intent`), SQL template compilation
(`generate_sql`), the top-level output dispatch of the UI block, and insight
narration (`generate_text`).  String values reproduce the template strings
of the source exactly (including the indentation of Python triple-quoted strings).
-/

/-- Substring scan over character lists, used to embed the Python `in` operator. -/
def listInfixOf (pat : List Char) : List Char → Bool
  | [] => pat.isEmpty
  | c :: cs => pat.isPrefixOf (c :: cs) || listInfixOf pat cs

/-- the Python substring test `pat in s`. -/
def strContains (s pat : String) : Bool := listInfixOf pat.data s.data

/-- the Python `s.lower()` (characterwise lowering). -/
def strLower (s : String) : String := String.mk (s.data.map Char.toLower)

/-- the Python `any(w in q for w in ws)`. -/
def containsAny (q : String) (ws : List String) : Bool :=
  ws.any (fun w => strContains q w)

/-- The seven intents produced by `detect_intent`. -/
inductive Intent
  | COUNT | WHY | DISTRIBUTION | TOP | PROBLEMS | SUMMARY | GENERAL
deriving DecidableEq

/-- Embeds `detect_intent` (src/app.py lines 32-53): lowercase the question,
then test the keyword sets in source order, first match winning. -/
def detect_intent (question : String) : Intent :=
  let q := strLower question
  if containsAny q ["how many", "count", "number"] then .COUNT
  else if containsAny q ["why", "reason", "cause"] then .WHY
  else if containsAny q ["distribution", "breakdown", "split"] then .DISTRIBUTION
  else if containsAny q ["most", "top", "highest"] then .TOP
  else if containsAny q ["problems", "facing"] then .PROBLEMS
  else if containsAny q ["overview", "summary", "analyze"] then .SUMMARY
  else .GENERAL

/-- The constant `TABLE_NAME` (src/app.py line 9). -/
def TABLE_NAME : String := "conversations"

/-- COUNT template filtered to Pending (src/app.py line 61). -/
def countPendingSQL : String :=
  "SELECT COUNT(*) AS value FROM " ++ TABLE_NAME ++
    " WHERE resolution_status=\x27Pending\x27"

/-- COUNT template filtered to Negative sentiment (src/app.py line 63). -/
def countNegativeSQL : String :=
  "SELECT COUNT(*) AS value FROM " ++ TABLE_NAME ++
    " WHERE sentiment=\x27Negative\x27"

/-- Unfiltered COUNT template (src/app.py line 64). -/
def countAllSQL : String :=
  "SELECT COUNT(*) AS value FROM " ++ TABLE_NAME

/-- DISTRIBUTION template (src/app.py lines 67-71), whitespace as in the
Python triple-quoted string. -/
def distributionSQL : String :=
  "\n        SELECT issue_type, sentiment, COUNT(*) AS count\n        FROM " ++
    TABLE_NAME ++ "\n        GROUP BY issue_type, sentiment\n        "

/-- Pending-filtered group-by template shared by TOP/WHY/SUMMARY/PROBLEMS/GENERAL
(src/app.py lines 75-81), whitespace as in the Python triple-quoted string. -/
def groupPendingSQL : String :=
  "\n            SELECT issue_type, COUNT(*) AS count\n            FROM " ++
    TABLE_NAME ++
    "\n            WHERE resolution_status=\x27Pending\x27\n            GROUP BY issue_type\n            ORDER BY count DESC\n            "

/-- Default group-by template shared by TOP/WHY/SUMMARY/PROBLEMS/GENERAL
(src/app.py lines 82-87), whitespace as in the Python triple-quoted string. -/
def groupDefaultSQL : String :=
  "\n        SELECT issue_type, COUNT(*) AS count\n        FROM " ++
    TABLE_NAME ++
    "\n        GROUP BY issue_type\n        ORDER BY count DESC\n        "

/-- Embeds `generate_sql` (src/app.py lines 56-87): intent-dispatched choice
among the fixed templates, refined only by substring flags of the lowercased
question. -/
def generate_sql (intent : Intent) (question : String) : String :=
  let q := strLower question
  match intent with
  | .COUNT =>
      if strContains q "pending" then countPendingSQL
      else if strContains q "negative" || strContains q "frustrated" then countNegativeSQL
      else countAllSQL
  | .DISTRIBUTION => distributionSQL
  | .TOP | .WHY | .SUMMARY | .PROBLEMS | .GENERAL =>
      if strContains q "pending" then groupPendingSQL
      else groupDefaultSQL

/-- One row of the grouped frames consumed by the narrator: an `issue_type`
label and a nonnegative `count` (COUNT(*) aggregates are nonnegative). -/
structure GRow where
  issue_type : String
  count : Nat
deriving DecidableEq

/-- Sum of the `count` column, embedding `df["count"].sum()`. -/
def sumCounts (df : List GRow) : Nat := (df.map GRow.count).sum

/-- Rounds the exact rational `(100 * c) / t` to the nearest integer, ties to
even, embedding the `f"{pct:.0f}"` format applied to `(cnt / total) * 100`
when `t > 0` (`pctStr` handles `t = 0`). -/
def pctRound (c t : Nat) : Nat :=
  let f := (100 * c) / t
  let rem2 := 2 * (100 * c - f * t)
  if rem2 < t then f
  else if t < rem2 then f + 1
  else if f % 2 = 0 then f else f + 1

/-- Rendered percentage figure inside narration sentences.  The operands of
`cnt / total` are numpy int64 scalars (the `count` column of a duckdb
`fetchdf` frame), so a zero total does not raise: numpy scalar division by
zero yields nan (for `0 / 0`) or inf (for `c / 0`, `c > 0`) with only a
RuntimeWarning, and `f"{pct:.0f}"` renders those as "nan" and "inf". -/
def pctStr (c t : Nat) : String :=
  if t = 0 then (if c = 0 then "nan" else "inf")
  else toString (pctRound c t)

/-- Embeds the inner `explain(keyword, label)` of `generate_text`
(src/app.py lines 101-110): filter rows whose `issue_type` contains the
keyword case-insensitively; if any match, narrate the share of `total` held
by the first matching row (a zero total renders as nan inside the sentence,
per `pctStr` — no exception), else return the Python `None` (here `none`). -/
def explain (df : List GRow) (total : Nat) (keyword label : String) :
    Option String :=
  match df.filter (fun r => strContains (strLower r.issue_type) keyword) with
  | [] => none
  | r :: _ =>
      some (label ++
        " issues impact customers because they account for **" ++
        pctStr r.count total ++
        "%** of reported cases, indicating resolution and process gaps.")

/-- Embeds `generate_text` (src/app.py lines 90-149).  Returns `some s`
where Python returns the string `s` and `none` where Python returns `None`
(falling off the end, or `explain` finding no matching row).  The function
is total and never raises: a zero total reaches the percentage division,
whose numpy int64 operands yield nan rather than an exception, and the
sentence is still produced (with "nan" inside, per `pctStr`). -/
def generate_text (intent : Intent) (question : String) (df : List GRow) :
    Option String :=
  let q := strLower question
  match df with
  | [] => some "No data available."
  | top :: _ =>
    let total := sumCounts df
    match intent with
    | .WHY =>
        if strContains q "service" || strContains q "satisfaction" then
          explain df total "general" "Service"
        else if strContains q "delivery" then explain df total "delivery" "Delivery"
        else if strContains q "product" then explain df total "product" "Product"
        else if strContains q "refund" then explain df total "refund" "Refund"
        else if strContains q "pending" || strContains q "unresolved" then
          some ("Pending cases are increasing mainly due to **" ++
            top.issue_type ++ "** issues, which contribute **" ++
            pctStr top.count total ++ "%** of unresolved cases.")
        else
          some ("The primary reason is **" ++ top.issue_type ++
            "** issues, accounting for **" ++ pctStr top.count total ++
            "%** of total cases.")
    | .PROBLEMS | .SUMMARY | .GENERAL =>
        let issue_list := String.intercalate ", " ((df.take 3).map GRow.issue_type)
        some ("Customers mainly face issues related to **" ++
          issue_list ++ "**, with **" ++ top.issue_type ++
          "** being the most frequent, contributing **" ++
          pctStr top.count total ++ "%** of reported cases.")
    | _ => none

/-- A single result-table cell (string category or integer aggregate). -/
inductive Cell
  | str (s : String)
  | int (n : Int)
deriving DecidableEq

/-- A rectangular query result: named columns and ordered rows. -/
structure ResultSet where
  cols : List String
  rows : List (List Cell)
deriving DecidableEq

/-- The four presentation shapes of the UI block. -/
inductive OutputCategory
  | KPI | SUMMARY_TEXT | STACKED_CHART | TABLE_CHART
deriving DecidableEq

/-- Embeds the top-level UI dispatch (src/app.py lines 160-179): `st.metric`
for COUNT, `st.success` text for WHY/SUMMARY/PROBLEMS/GENERAL, the pivoted
bar chart for DISTRIBUTION, the plain bar chart for TOP.  The result set is
accepted but never inspected: the branch is chosen by intent alone. -/
def decide_output (intent : Intent) (_result : ResultSet) : OutputCategory :=
  match intent with
  | .COUNT => .KPI
  | .WHY | .SUMMARY | .PROBLEMS | .GENERAL => .SUMMARY_TEXT
  | .DISTRIBUTION => .STACKED_CHART
  | .TOP => .TABLE_CHART

/-- The ordered rule table of spec section 4.1 (priority, trigger set,
intent), written down from the spec to compare against `detect_intent`. -/
def ruleTable : List (List String × Intent) :=
  [(["how many", "count", "number"], .COUNT),
   (["why", "reason", "cause"], .WHY),
   (["distribution", "breakdown", "split"], .DISTRIBUTION),
   (["most", "top", "highest"], .TOP),
   (["problems", "facing"], .PROBLEMS),
   (["overview", "summary", "analyze"], .SUMMARY)]

/-- Modelled from the spec: first-match evaluation of the ordered rule table
of section 4.1, defaulting to GENERAL, for the refinement comparison with
`detect_intent`. -/
def specClassify (question : String) : Intent :=
  let q := strLower question
  match ruleTable.find? (fun rule => containsAny q rule.1) with
  | some rule => rule.2
  | none => .GENERAL

/-- The two boolean flags through which the question text reaches
`generate_sql`: the Pending flag and the Negative-or-frustrated flag. -/
def sqlFlags (question : String) : Bool × Bool :=
  (strContains (strLower question) "pending",
   strContains (strLower question) "negative" ||
     strContains (strLower question) "frustrated")

/-- The closed set of template strings `generate_sql` can emit. -/
def sqlTemplates : List String :=
  [countPendingSQL, countNegativeSQL, countAllSQL,
   distributionSQL, groupPendingSQL, groupDefaultSQL]

/-- Holds when the first character of `s` is `c`. -/
def headIs (s : String) (c : Char) : Prop := ∃ cs, s.data = c :: cs

/-- Appending distributes over the character lists of strings. -/
theorem strData_append (s t : String) : (s ++ t).data = s.data ++ t.data := rfl

/-- Appending on the right preserves the first character. -/
theorem headIs_append (s t : String) (c : Char) (h : headIs s c) :
    headIs (s ++ t) c := by
  obtain ⟨cs, hcs⟩ := h
  exact ⟨cs ++ t.data, by rw [strData_append, hcs]; rfl⟩

/-- A string starting with a character other than the capital letter N is
not the fixed no-data message. -/
theorem ne_noData_of_headIs (s : String) (c : Char) (h : headIs s c)
    (hc : c ≠ 'N') : s ≠ "No data available." := by
  intro he
  obtain ⟨cs, hcs⟩ := h
  rw [he] at hcs
  have h2 : ('N' : Char) :: "o data available.".data = c :: cs := hcs
  injection h2 with h1 _
  exact hc h1.symm

/-- The `explain` helper never returns the fixed no-data message when its
label starts with a character other than the capital letter N: it returns
either `none` or a sentence led by the label. -/
theorem explain_ne_noData (df : List GRow) (total : Nat) (kw label : String)
    (c : Char) (hl : headIs label c) (hc : c ≠ 'N') :
    explain df total kw label ≠ some "No data available." := by
  unfold explain
  split
  · exact fun h => Option.noConfusion h
  · intro h
    injection h with h1
    exact ne_noData_of_headIs _ c
      (headIs_append _ _ _ (headIs_append _ _ _ (headIs_append _ _ _ hl))) hc h1

/-- Claim C1, counterexample: the question below contains the WHY trigger
"why" and the DISTRIBUTION trigger "distribution", yet `detect_intent`
classifies it as COUNT (the word "count" is also present and the COUNT rule
fires first), not WHY as the claim requires of every such question. -/
theorem c1_counterexample :
    strContains (strLower "why is the count distribution skewed") "why" = true ∧
    strContains (strLower "why is the count distribution skewed") "distribution" = true ∧
    detect_intent "why is the count distribution skewed" = Intent.COUNT ∧
    detect_intent "why is the count distribution skewed" ≠ Intent.WHY := by
  refine ⟨by decide, by decide, by decide, by decide⟩

/-- Claim C1 (amended): `detect_intent` is a total deterministic function that
coincides everywhere with first-match evaluation of the ordered rule table
COUNT, WHY, DISTRIBUTION, TOP, PROBLEMS, SUMMARY over the lowercased question,
with GENERAL as default; and every question containing the WHY trigger "why"
and the DISTRIBUTION trigger "distribution" but no COUNT trigger classifies
as WHY. -/
theorem c1_detect_intent_ordered_rules :
    (∀ q, detect_intent q = specClassify q) ∧
    (∀ q, strContains (strLower q) "why" = true →
      strContains (strLower q) "distribution" = true →
      containsAny (strLower q) ["how many", "count", "number"] = false →
      detect_intent q = Intent.WHY) := by
  constructor
  · intro question
    simp only [detect_intent, specClassify, ruleTable, List.find?]
    cases h1 : containsAny (strLower question) ["how many", "count", "number"] <;>
    cases h2 : containsAny (strLower question) ["why", "reason", "cause"] <;>
    cases h3 : containsAny (strLower question) ["distribution", "breakdown", "split"] <;>
    cases h4 : containsAny (strLower question) ["most", "top", "highest"] <;>
    cases h5 : containsAny (strLower question) ["problems", "facing"] <;>
    cases h6 : containsAny (strLower question) ["overview", "summary", "analyze"] <;>
    simp [h1, h2, h3, h4, h5, h6]
  · intro q hwhy _hdist hcount
    have hw : containsAny (strLower q) ["why", "reason", "cause"] = true := by
      simp [containsAny, hwhy]
    simp only [detect_intent, hcount, hw]
    rfl

/-- Claim C1, witness: a question with "why" and "distribution" and no COUNT
trigger is classified WHY. -/
theorem c1_witness : detect_intent "why this distribution" = Intent.WHY :=
  c1_detect_intent_ordered_rules.2 "why this distribution"
    (by decide) (by decide) (by decide)

/-- Claim C2, counterexample: a result set with exactly one row and one
column is not shown as KPI when the intent is WHY — the dispatch branches on
intent alone, and WHY renders text. -/
theorem c2_counterexample :
    (ResultSet.mk ["value"] [[Cell.int 42]]).rows.length = 1 ∧
    (ResultSet.mk ["value"] [[Cell.int 42]]).cols.length = 1 ∧
    decide_output Intent.WHY (ResultSet.mk ["value"] [[Cell.int 42]]) =
      OutputCategory.SUMMARY_TEXT ∧
    decide_output Intent.WHY (ResultSet.mk ["value"] [[Cell.int 42]]) ≠
      OutputCategory.KPI := by
  refine ⟨rfl, rfl, rfl, by decide⟩

/-- Claim C2 (amended): the chosen output category is a function of the
intent alone and never of the result shape: COUNT yields KPI,
WHY/SUMMARY/PROBLEMS/GENERAL yield SUMMARY_TEXT, DISTRIBUTION yields
STACKED_CHART, TOP yields TABLE_CHART; in particular a one-row one-column
result is shown as KPI exactly when the intent is COUNT. -/
theorem c2_dispatch_by_intent_only :
    ∀ (r r' : ResultSet),
      decide_output Intent.COUNT r = OutputCategory.KPI ∧
      decide_output Intent.WHY r = OutputCategory.SUMMARY_TEXT ∧
      decide_output Intent.SUMMARY r = OutputCategory.SUMMARY_TEXT ∧
      decide_output Intent.PROBLEMS r = OutputCategory.SUMMARY_TEXT ∧
      decide_output Intent.GENERAL r = OutputCategory.SUMMARY_TEXT ∧
      decide_output Intent.DISTRIBUTION r = OutputCategory.STACKED_CHART ∧
      decide_output Intent.TOP r = OutputCategory.TABLE_CHART ∧
      ∀ i, decide_output i r = decide_output i r' := by
  intro r r'
  refine ⟨rfl, rfl, rfl, rfl, rfl, rfl, rfl, ?_⟩
  intro i
  cases i <;> rfl

/-- Claim C3, counterexample: a non-empty result set whose counts sum to
zero is not guarded — `generate_text` passes the emptiness check, reaches
the zero-total percentage computation (numpy int64 division, which warns
and yields nan instead of raising), and returns a narration sentence with
nan as the percentage, not the fixed no-data message. -/
theorem c3_counterexample :
    sumCounts [GRow.mk "Billing" 0] = 0 ∧
    generate_text Intent.WHY "" [GRow.mk "Billing" 0] =
      some "The primary reason is **Billing** issues, accounting for **nan%** of total cases." ∧
    ("The primary reason is **Billing** issues, accounting for **nan%** of total cases." : String) ≠
      "No data available." := by
  refine ⟨rfl, by decide, by decide⟩

/-- Claim C3 (amended): the emptiness test is the only guard: for every
intent and every question, `generate_text` returns the fixed no-data
message on the empty result set, and never on a non-empty one — a
non-empty result set whose counts sum to zero is narrated like any other,
its zero-total percentage rendering as nan inside the sentence (numpy
int64 division yields nan with a RuntimeWarning), and no arithmetic fault
is ever raised: the narrator is a total function. -/
theorem c3_empty_guard :
    (∀ (i : Intent) (q : String),
      generate_text i q [] = some "No data available.") ∧
    (∀ (i : Intent) (q : String) (df : List GRow), df ≠ [] →
      generate_text i q df ≠ some "No data available.") := by
  constructor
  · intro i q
    rfl
  · intro i q df hne
    cases df with
    | nil => exact absurd rfl hne
    | cons top rest =>
      cases i
      case COUNT => simp [generate_text]
      case DISTRIBUTION => simp [generate_text]
      case TOP => simp [generate_text]
      case WHY =>
        simp only [generate_text]
        split
        · exact explain_ne_noData _ _ _ _ 'S' ⟨_, rfl⟩ (by decide)
        · split
          · exact explain_ne_noData _ _ _ _ 'D' ⟨_, rfl⟩ (by decide)
          · split
            · exact explain_ne_noData _ _ _ _ 'P' ⟨_, rfl⟩ (by decide)
            · split
              · exact explain_ne_noData _ _ _ _ 'R' ⟨_, rfl⟩ (by decide)
              · split
                · intro h
                  injection h with h1
                  exact ne_noData_of_headIs _ 'P'
                    (headIs_append _ _ _ (headIs_append _ _ _ (headIs_append _ _ _
                      (headIs_append _ _ _ ⟨_, rfl⟩)))) (by decide) h1
                · intro h
                  injection h with h1
                  exact ne_noData_of_headIs _ 'T'
                    (headIs_append _ _ _ (headIs_append _ _ _ (headIs_append _ _ _
                      (headIs_append _ _ _ ⟨_, rfl⟩)))) (by decide) h1
      case PROBLEMS =>
        simp only [generate_text]
        intro h
        injection h with h1
        exact ne_noData_of_headIs _ 'C'
          (headIs_append _ _ _ (headIs_append _ _ _ (headIs_append _ _ _
            (headIs_append _ _ _ (headIs_append _ _ _
              (headIs_append _ _ _ ⟨_, rfl⟩)))))) (by decide) h1
      case SUMMARY =>
        simp only [generate_text]
        intro h
        injection h with h1
        exact ne_noData_of_headIs _ 'C'
          (headIs_append _ _ _ (headIs_append _ _ _ (headIs_append _ _ _
            (headIs_append _ _ _ (headIs_append _ _ _
              (headIs_append _ _ _ ⟨_, rfl⟩)))))) (by decide) h1
      case GENERAL =>
        simp only [generate_text]
        intro h
        injection h with h1
        exact ne_noData_of_headIs _ 'C'
          (headIs_append _ _ _ (headIs_append _ _ _ (headIs_append _ _ _
            (headIs_append _ _ _ (headIs_append _ _ _
              (headIs_append _ _ _ ⟨_, rfl⟩)))))) (by decide) h1

/-- Claim C3, witness: the non-empty conjunct applied at a concrete
one-row result. -/
theorem c3_witness :
    generate_text Intent.PROBLEMS "overview" [GRow.mk "Billing" 2] ≠
      some "No data available." :=
  c3_empty_guard.2 Intent.PROBLEMS "overview" [GRow.mk "Billing" 2] (by decide)

/-- Claim C4, counterexample: a COUNT question containing "unresolved" (but
not "pending") compiles to the unfiltered count-all query, not the
Pending-filtered count query the claim requires — "unresolved" is not a
trigger in the code. -/
theorem c4_counterexample :
    strContains (strLower "count of unresolved issues") "unresolved" = true ∧
    strContains (strLower "count of unresolved issues") "pending" = false ∧
    generate_sql Intent.COUNT "count of unresolved issues" = countAllSQL ∧
    countAllSQL ≠ countPendingSQL := by
  refine ⟨by decide, by decide, by decide, by decide⟩

/-- Claim C4 (amended): for intent COUNT the compiler returns the
Pending-filtered count query whenever the lowercased question contains
"pending" (but not for "unresolved"); otherwise the Negative-sentiment count
query whenever it contains "negative" or "frustrated"; otherwise the
unfiltered count-all query. -/
theorem c4_count_sql :
    ∀ q, (strContains (strLower q) "pending" = true →
        generate_sql Intent.COUNT q = countPendingSQL) ∧
      (strContains (strLower q) "pending" = false →
        (strContains (strLower q) "negative" || strContains (strLower q) "frustrated") = true →
        generate_sql Intent.COUNT q = countNegativeSQL) ∧
      (strContains (strLower q) "pending" = false →
        (strContains (strLower q) "negative" || strContains (strLower q) "frustrated") = false →
        generate_sql Intent.COUNT q = countAllSQL) := by
  intro q
  refine ⟨fun h1 => ?_, fun h1 h2 => ?_, fun h1 h2 => ?_⟩
  · simp [generate_sql, h1]
  · simp [generate_sql, h1, h2]
  · simp [generate_sql, h1, h2]

/-- Claim C4, witness: concrete questions exercising all three COUNT
branches. -/
theorem c4_witness :
    generate_sql Intent.COUNT "how many pending tickets" = countPendingSQL ∧
    generate_sql Intent.COUNT "how many negative reviews" = countNegativeSQL ∧
    generate_sql Intent.COUNT "how many rows" = countAllSQL :=
  ⟨(c4_count_sql "how many pending tickets").1 (by decide),
   (c4_count_sql "how many negative reviews").2.1 (by decide) (by decide),
   (c4_count_sql "how many rows").2.2 (by decide) (by decide)⟩

/-- Claim C5, counterexample: the TOP query compiled for a scalar-seeking
"most" question is the full descending group-by list with no LIMIT clause at
all — neither a top-5 nor a top-1 restriction appears, so the compiled query
does return an unlimited group list. -/
theorem c5_counterexample :
    generate_sql Intent.TOP "which issue type has most complaints" = groupDefaultSQL ∧
    strContains groupDefaultSQL "LIMIT" = false ∧
    strContains groupPendingSQL "LIMIT" = false := by
  refine ⟨by decide, by decide, by decide⟩

/-- Claim C5 (amended): for intent TOP the compiled query groups by
issue_type, counts, and sorts descending by count, but applies no row limit:
for every question it is one of the two unlimited group-by templates (the
Pending-filtered one exactly when the question contains "pending"), and
neither template contains a LIMIT clause. -/
theorem c5_top_sql :
    ∀ q, (generate_sql Intent.TOP q = groupPendingSQL ∨
        generate_sql Intent.TOP q = groupDefaultSQL) ∧
      strContains (generate_sql Intent.TOP q) "GROUP BY issue_type" = true ∧
      strContains (generate_sql Intent.TOP q) "ORDER BY count DESC" = true ∧
      strContains (generate_sql Intent.TOP q) "LIMIT" = false := by
  intro q
  simp only [generate_sql]
  split
  · exact ⟨Or.inl rfl, by decide, by decide, by decide⟩
  · exact ⟨Or.inr rfl, by decide, by decide, by decide⟩

/-- Claim C6, counterexample: a WHY question mentioning "sentiment" and
"dissatisfied" (and not "pending") compiles to the plain group-by-issue_type
query, not the (issue_type, sentiment) pair query the claim requires — the
compiler has no sentiment branch for WHY. -/
theorem c6_counterexample :
    strContains (strLower "why are customers dissatisfied with the sentiment") "sentiment" = true ∧
    strContains (strLower "why are customers dissatisfied with the sentiment") "dissatisfied" = true ∧
    strContains (strLower "why are customers dissatisfied with the sentiment") "pending" = false ∧
    generate_sql Intent.WHY "why are customers dissatisfied with the sentiment" = groupDefaultSQL ∧
    strContains groupDefaultSQL "sentiment" = false := by
  refine ⟨by decide, by decide, by decide, by decide, by decide⟩

/-- Claim C6 (amended): for intent WHY the compiled query is the
Pending-filtered group-by-issue_type query exactly when the question
contains "pending" ("unresolved" is not a trigger), and otherwise the
unfiltered group-by-issue_type query sorted descending; there is no
secondary branch on "sentiment" or "dissatisfied", and the compiled query
never mentions the sentiment column. -/
theorem c6_why_sql :
    ∀ q, generate_sql Intent.WHY q =
        (if strContains (strLower q) "pending" then groupPendingSQL
         else groupDefaultSQL) ∧
      strContains (generate_sql Intent.WHY q) "sentiment" = false := by
  intro q
  refine ⟨rfl, ?_⟩
  simp only [generate_sql]
  split <;> decide

/-- Claim C7, counterexample: a WHY question containing the sub-issue
keyword "delivery" narrated over a single-row result whose issue_type
"Billing" does not contain "delivery": the narrator returns no sentence
(the Python None, here the Lean `none`) instead of falling back to the dominant row. -/
theorem c7_counterexample :
    strContains (strLower "why delivery") "delivery" = true ∧
    strContains (strLower "Billing") "delivery" = false ∧
    generate_text Intent.WHY "why delivery" [GRow.mk "Billing" 10] = none := by
  refine ⟨by decide, by decide, rfl⟩

/-- Claim C7 (amended): in WHY narration on a non-empty result, when the
question selects a sub-issue keyword branch and no row matches the
corresponding issue_type substring, the narrator returns no sentence (the
Python None) — there is no fallback to the overall-dominant row.  Stated for
all four keyword branches, whose question triggers are, in source order:
"service"/"satisfaction" (matching substring "general"), "delivery",
"product", and "refund". -/
theorem c7_why_subissue_no_fallback :
    ∀ (question : String) (r : GRow) (rest : List GRow),
      (((strContains (strLower question) "service" ||
          strContains (strLower question) "satisfaction") = true →
        (∀ x ∈ r :: rest, strContains (strLower x.issue_type) "general" = false) →
        generate_text Intent.WHY question (r :: rest) = none) ∧
      ((strContains (strLower question) "service" ||
          strContains (strLower question) "satisfaction") = false →
        strContains (strLower question) "delivery" = true →
        (∀ x ∈ r :: rest, strContains (strLower x.issue_type) "delivery" = false) →
        generate_text Intent.WHY question (r :: rest) = none) ∧
      ((strContains (strLower question) "service" ||
          strContains (strLower question) "satisfaction") = false →
        strContains (strLower question) "delivery" = false →
        strContains (strLower question) "product" = true →
        (∀ x ∈ r :: rest, strContains (strLower x.issue_type) "product" = false) →
        generate_text Intent.WHY question (r :: rest) = none) ∧
      ((strContains (strLower question) "service" ||
          strContains (strLower question) "satisfaction") = false →
        strContains (strLower question) "delivery" = false →
        strContains (strLower question) "product" = false →
        strContains (strLower question) "refund" = true →
        (∀ x ∈ r :: rest, strContains (strLower x.issue_type) "refund" = false) →
        generate_text Intent.WHY question (r :: rest) = none)) := by
  intro question r rest
  refine ⟨fun h1 hn => ?_, fun h1 h2 hn => ?_, fun h1 h2 h3 hn => ?_,
    fun h1 h2 h3 h4 hn => ?_⟩ <;>
  · first
    | (have hfil : (r :: rest).filter
          (fun x => strContains (strLower x.issue_type) "general") = [] := by
        rw [List.filter_eq_nil_iff]
        intro a ha
        simp [hn a ha]
       simp only [generate_text, explain, h1, hfil]
       rfl)
    | (have hfil : (r :: rest).filter
          (fun x => strContains (strLower x.issue_type) "delivery") = [] := by
        rw [List.filter_eq_nil_iff]
        intro a ha
        simp [hn a ha]
       simp only [generate_text, explain, h1, h2, hfil]
       rfl)
    | (have hfil : (r :: rest).filter
          (fun x => strContains (strLower x.issue_type) "product") = [] := by
        rw [List.filter_eq_nil_iff]
        intro a ha
        simp [hn a ha]
       simp only [generate_text, explain, h1, h2, h3, hfil]
       rfl)
    | (have hfil : (r :: rest).filter
          (fun x => strContains (strLower x.issue_type) "refund") = [] := by
        rw [List.filter_eq_nil_iff]
        intro a ha
        simp [hn a ha]
       simp only [generate_text, explain, h1, h2, h3, h4, hfil]
       rfl)

/-- Claim C7, witness: the delivery branch at a concrete non-matching
result. -/
theorem c7_witness :
    generate_text Intent.WHY "why is delivery bad" [GRow.mk "Payment" 5] =
      none :=
  (c7_why_subissue_no_fallback "why is delivery bad" (GRow.mk "Payment" 5) []).2.1
    (by decide) (by decide) (by decide)

/-- Claim C8, counterexample: compilation of a DISTRIBUTION request always
succeeds and returns the query string referencing the `sentiment` column.
`generate_sql` takes no schema information at all, so when the dataset lacks
`sentiment` it still returns this string instead of failing with a
SchemaMismatch condition. -/
theorem c8_counterexample :
    generate_sql Intent.DISTRIBUTION "show the breakdown" = distributionSQL ∧
    strContains distributionSQL "sentiment" = true := by
  refine ⟨by decide, by decide⟩

/-- Claim C8 (amended): the compiler performs no schema check — it is a
total function of intent and question text alone, and for DISTRIBUTION it
unconditionally returns the fixed query referencing the `sentiment` column;
a missing column can only surface at query execution, never as a compilation
failure. -/
theorem c8_no_schema_check :
    ∀ q, generate_sql Intent.DISTRIBUTION q = distributionSQL ∧
      strContains (generate_sql Intent.DISTRIBUTION q) "sentiment" = true := by
  intro q
  refine ⟨rfl, ?_⟩
  show strContains distributionSQL "sentiment" = true
  decide

/-- Claim C9 (confirmed): the compiled query is always drawn from the closed
set of six fixed template strings (so no raw question text is interpolated),
and the question reaches the compiler only through the two boolean keyword
flags: any two questions with equal flags compile identically under every
intent. -/
theorem c9_closed_templates :
    ∀ (i : Intent) (q : String),
      generate_sql i q ∈ sqlTemplates ∧
      ∀ q2, sqlFlags q = sqlFlags q2 → generate_sql i q = generate_sql i q2 := by
  intro i q
  constructor
  · cases i <;> simp only [generate_sql, sqlTemplates, List.mem_cons, List.not_mem_nil] <;>
      (repeat' split) <;> simp
  · intro q2 h
    have h1 : strContains (strLower q) "pending" = strContains (strLower q2) "pending" :=
      congrArg Prod.fst h
    have h2 : (strContains (strLower q) "negative" || strContains (strLower q) "frustrated") =
        (strContains (strLower q2) "negative" || strContains (strLower q2) "frustrated") :=
      congrArg Prod.snd h
    cases i <;> simp only [generate_sql, h1, h2]

/-- Claim C9, witness: two different questions with equal keyword flags
compile to the same query. -/
theorem c9_witness :
    sqlFlags "how many arrived" = sqlFlags "what number total" ∧
    generate_sql Intent.COUNT "how many arrived" =
      generate_sql Intent.COUNT "what number total" :=
  ⟨by decide,
   (c9_closed_templates Intent.COUNT "how many arrived").2 "what number total" (by decide)⟩

/-- Claim C10 (confirmed): for every question the compiler emits the
identical query under TOP, WHY, SUMMARY, PROBLEMS, and GENERAL — the
Pending-filtered group-by-issue_type query exactly when the lowercased
question contains "pending", and otherwise the unfiltered
group-by-issue_type query sorted descending by count. -/
theorem c10_five_intents_share_query :
    ∀ q, generate_sql Intent.TOP q = generate_sql Intent.WHY q ∧
      generate_sql Intent.WHY q = generate_sql Intent.SUMMARY q ∧
      generate_sql Intent.SUMMARY q = generate_sql Intent.PROBLEMS q ∧
      generate_sql Intent.PROBLEMS q = generate_sql Intent.GENERAL q ∧
      generate_sql Intent.GENERAL q =
        (if strContains (strLower q) "pending" then groupPendingSQL
         else groupDefaultSQL) := by
  intro q
  exact ⟨rfl, rfl, rfl, rfl, rfl⟩
